import Mathlib

/-!
Shallow embedding of the terraswap_moon emission controller
(src/contracts/terraswap_moon/src/contract.rs).

Modelling conventions:
* Uint128 amounts and cursors are modelled as Nat.  Every comparison and
  truncating division performed by the code agrees with Nat arithmetic, and
  the single checked addition (month_index + 1) is executed only under the
  guard month_index < month_count; since month_count is a stored Uint128
  (hence below 2 ^ 128) the addition can never overflow for representable
  states, so the Nat model is exact.
* Human and canonical addresses are both modelled as String; the address
  codec (deps.api) is an explicit Api record of possibly failing functions.
* The token-balance and total-supply queries are modelled as oracle
  functions carried in the Env record: each call returns the value the
  chain would answer for the given arguments.
* Each entry point returns, on success, the configuration it saved to
  storage together with the list of outbound messages of its Response; on
  error nothing is saved (every error path in the source returns before the
  single MOON_CONFIG.save call), which the step function nextConfig makes
  explicit.
-/

/-- Failures of the host standard library surfaced by the address codec
(cosmwasm StdError, external to the core; only its occurrence matters). -/
inductive StdError where
  | addressError
deriving DecidableEq, Repr

/-- Modelled from the spec: crate::error::ContractError (the error module) is
not under src/.  Unauthorized and LessThanVesting are the two variants that
contract.rs constructs; Std wraps a propagated StdError (the question-mark
conversions); ScheduleExhausted comes from the error taxonomy of spec
section 7 and is never constructed by contract.rs — it is included so that
statements about it can be written down. -/
inductive ContractError where
  | Unauthorized
  | LessThanVesting
  | ScheduleExhausted
  | Std (e : StdError)
deriving DecidableEq, Repr

/-- cw20::Denom as used by contract.rs: a cw20 token address or a native
coin denomination. -/
inductive Denom where
  | cw20 (addr : String)
  | native (denom : String)
deriving DecidableEq, Repr

/-- The outbound instructions the controller can return: a token transfer
(built by util::transfer_token_message) or the burn-from instruction that
automatic_burn builds inline as a WasmMsg::Execute carrying
Cw20ExecuteMsg::BurnFrom \x7b owner, amount \x7d addressed to contractAddr. -/
inductive CosmosMsg where
  | transfer (denom : Denom) (amount : Nat) (recipient : String)
  | burnFrom (contractAddr : String) (owner : String) (amount : Nat)
deriving DecidableEq, Repr

/-- classic_terraswap::asset::VestInfoRaw exactly as constructed by
instantiate (contract.rs lines 55-92): canonical beneficiary address,
monthly amount, month count and the month_index cursor. -/
structure VestInfoRaw where
  address : String
  monthly_amount : Nat
  month_count : Nat
  month_index : Nat
deriving DecidableEq, Repr

/-- classic_terraswap::asset::MoonInfoRaw exactly as constructed by
instantiate (contract.rs lines 94-103): the persisted EmissionConfig. -/
structure MoonInfoRaw where
  clsm_addr : String
  minter_addr : String
  timer_trigger : String
  pair_vest : VestInfoRaw
  nft_vest : VestInfoRaw
  marketing_vest : VestInfoRaw
  game_vest : VestInfoRaw
  team_vest : VestInfoRaw
deriving DecidableEq, Repr

/-- Modelled from the spec: classic_terraswap::asset::VestInfo (the
human-address input form) is not under src/; its fields are exactly those
instantiate reads from each msg.*_vest (address, monthly_amount,
month_count), matching the schedule parameters of spec section 3. -/
structure VestInfo where
  address : String
  monthly_amount : Nat
  month_count : Nat
deriving DecidableEq, Repr

/-- Modelled from the spec: classic_terraswap::moon::InstantiateMsg is not
under src/; its fields are exactly those instantiate reads. -/
structure InstantiateMsg where
  clsm_addr : String
  minter_addr : String
  timer_trigger : String
  pair_vest : VestInfo
  nft_vest : VestInfo
  marketing_vest : VestInfo
  game_vest : VestInfo
  team_vest : VestInfo
deriving DecidableEq, Repr

/-- The address codec (deps.api): addr_canonicalize and addr_humanize,
both possibly failing (spec section 6). -/
structure Api where
  canon : String → Except StdError String
  human : String → Except StdError String

/-- The chain context an entry point sees: the contract's own address
(env.contract.address) and the query oracles (query_token_balance and
query_token_total_supply answers, spec section 6). -/
structure Env where
  contractAddress : String
  balanceOf : String → String → Nat
  totalSupplyOf : String → String → Nat

/-- One invocation context: codec, chain context and the caller
(info.sender). -/
structure Tick where
  api : Api
  env : Env
  sender : String

/-- Modelled from the spec: util::transfer_token_message (crate::util) is
not under src/.  Per spec section 4.2 step 4 and section 6 it constructs
exactly one token-transfer instruction for the given denom, amount and
recipient. -/
def transfer_token_message (denom : Denom) (amount : Nat) (recipient : String) :
    CosmosMsg :=
  CosmosMsg.transfer denom amount recipient

/-- instantiate (contract.rs lines 46-107): canonicalize every supplied
address, build the five schedules with month_index = 0 and save the
configuration.  (set_contract_version touches only version metadata and is
omitted.) -/
def instantiate (api : Api) (msg : InstantiateMsg) :
    Except StdError MoonInfoRaw := do
  let pairAddr ← api.canon msg.pair_vest.address
  let nftAddr ← api.canon msg.nft_vest.address
  let marketingAddr ← api.canon msg.marketing_vest.address
  let gameAddr ← api.canon msg.game_vest.address
  let teamAddr ← api.canon msg.team_vest.address
  let clsmAddr ← api.canon msg.clsm_addr
  let minterAddr ← api.canon msg.minter_addr
  let triggerAddr ← api.canon msg.timer_trigger
  return { clsm_addr := clsmAddr
           minter_addr := minterAddr
           timer_trigger := triggerAddr
           pair_vest := { address := pairAddr
                          monthly_amount := msg.pair_vest.monthly_amount
                          month_count := msg.pair_vest.month_count
                          month_index := 0 }
           nft_vest := { address := nftAddr
                         monthly_amount := msg.nft_vest.monthly_amount
                         month_count := msg.nft_vest.month_count
                         month_index := 0 }
           marketing_vest := { address := marketingAddr
                               monthly_amount := msg.marketing_vest.monthly_amount
                               month_count := msg.marketing_vest.month_count
                               month_index := 0 }
           game_vest := { address := gameAddr
                          monthly_amount := msg.game_vest.monthly_amount
                          month_count := msg.game_vest.month_count
                          month_index := 0 }
           team_vest := { address := teamAddr
                          monthly_amount := msg.team_vest.monthly_amount
                          month_count := msg.team_vest.month_count
                          month_index := 0 } }

/-- emission2pair_contract (contract.rs lines 129-172).  The source
humanizes clsm_addr twice (once for the balance query, once for the
transfer message); the codec is a pure function here, so the single result
clsmHuman stands for both calls. -/
def emission2pair_contract (api : Api) (env : Env) (sender : String)
    (cfg : MoonInfoRaw) : Except ContractError (MoonInfoRaw × List CosmosMsg) :=
  match api.canon sender with
  | .error e => .error (.Std e)
  | .ok senderCanon =>
    if senderCanon ≠ cfg.timer_trigger then .error .Unauthorized
    else
      let clsm_addr := cfg.clsm_addr
      let pair_contract_address := cfg.pair_vest.address
      let pair_contract_monthly_amount := cfg.pair_vest.monthly_amount
      let pair_contract_month_count := cfg.pair_vest.month_count
      let pair_contract_month_index := cfg.pair_vest.month_index
      if pair_contract_month_index ≥ pair_contract_month_count then
        .error .Unauthorized
      else
        match api.human clsm_addr with
        | .error e => .error (.Std e)
        | .ok clsmHuman =>
          let clsm_amount := env.balanceOf clsmHuman env.contractAddress
          if clsm_amount < pair_contract_monthly_amount then
            .error .LessThanVesting
          else
            match api.human pair_contract_address with
            | .error e => .error (.Std e)
            | .ok pairHuman =>
              let messages := [transfer_token_message (Denom.cw20 clsmHuman)
                pair_contract_monthly_amount pairHuman]
              let cfg2 := { cfg with pair_vest :=
                { cfg.pair_vest with month_index := pair_contract_month_index + 1 } }
              .ok (cfg2, messages)

/-- emission2nft_minter (contract.rs lines 174-217). -/
def emission2nft_minter (api : Api) (env : Env) (sender : String)
    (cfg : MoonInfoRaw) : Except ContractError (MoonInfoRaw × List CosmosMsg) :=
  match api.canon sender with
  | .error e => .error (.Std e)
  | .ok senderCanon =>
    if senderCanon ≠ cfg.timer_trigger then .error .Unauthorized
    else
      let clsm_addr := cfg.clsm_addr
      let nft_minter_address := cfg.nft_vest.address
      let nft_minter_monthly_amount := cfg.nft_vest.monthly_amount
      let nft_minter_month_count := cfg.nft_vest.month_count
      let nft_minter_month_index := cfg.nft_vest.month_index
      if nft_minter_month_index ≥ nft_minter_month_count then
        .error .Unauthorized
      else
        match api.human clsm_addr with
        | .error e => .error (.Std e)
        | .ok clsmHuman =>
          let clsm_amount := env.balanceOf clsmHuman env.contractAddress
          if clsm_amount < nft_minter_monthly_amount then
            .error .LessThanVesting
          else
            match api.human nft_minter_address with
            | .error e => .error (.Std e)
            | .ok nftHuman =>
              let messages := [transfer_token_message (Denom.cw20 clsmHuman)
                nft_minter_monthly_amount nftHuman]
              let cfg2 := { cfg with nft_vest :=
                { cfg.nft_vest with month_index := nft_minter_month_index + 1 } }
              .ok (cfg2, messages)

/-- emission2marketing (contract.rs lines 219-262). -/
def emission2marketing (api : Api) (env : Env) (sender : String)
    (cfg : MoonInfoRaw) : Except ContractError (MoonInfoRaw × List CosmosMsg) :=
  match api.canon sender with
  | .error e => .error (.Std e)
  | .ok senderCanon =>
    if senderCanon ≠ cfg.timer_trigger then .error .Unauthorized
    else
      let clsm_addr := cfg.clsm_addr
      let marketing_address := cfg.marketing_vest.address
      let marketing_monthly_amount := cfg.marketing_vest.monthly_amount
      let marketing_month_count := cfg.marketing_vest.month_count
      let marketing_month_index := cfg.marketing_vest.month_index
      if marketing_month_index ≥ marketing_month_count then
        .error .Unauthorized
      else
        match api.human clsm_addr with
        | .error e => .error (.Std e)
        | .ok clsmHuman =>
          let clsm_amount := env.balanceOf clsmHuman env.contractAddress
          if clsm_amount < marketing_monthly_amount then
            .error .LessThanVesting
          else
            match api.human marketing_address with
            | .error e => .error (.Std e)
            | .ok marketingHuman =>
              let messages := [transfer_token_message (Denom.cw20 clsmHuman)
                marketing_monthly_amount marketingHuman]
              let cfg2 := { cfg with marketing_vest :=
                { cfg.marketing_vest with month_index := marketing_month_index + 1 } }
              .ok (cfg2, messages)

/-- emission2minigames (contract.rs lines 264-307). -/
def emission2minigames (api : Api) (env : Env) (sender : String)
    (cfg : MoonInfoRaw) : Except ContractError (MoonInfoRaw × List CosmosMsg) :=
  match api.canon sender with
  | .error e => .error (.Std e)
  | .ok senderCanon =>
    if senderCanon ≠ cfg.timer_trigger then .error .Unauthorized
    else
      let clsm_addr := cfg.clsm_addr
      let game_address := cfg.game_vest.address
      let game_monthly_amount := cfg.game_vest.monthly_amount
      let game_month_count := cfg.game_vest.month_count
      let game_month_index := cfg.game_vest.month_index
      if game_month_index ≥ game_month_count then
        .error .Unauthorized
      else
        match api.human clsm_addr with
        | .error e => .error (.Std e)
        | .ok clsmHuman =>
          let clsm_amount := env.balanceOf clsmHuman env.contractAddress
          if clsm_amount < game_monthly_amount then
            .error .LessThanVesting
          else
            match api.human game_address with
            | .error e => .error (.Std e)
            | .ok gameHuman =>
              let messages := [transfer_token_message (Denom.cw20 clsmHuman)
                game_monthly_amount gameHuman]
              let cfg2 := { cfg with game_vest :=
                { cfg.game_vest with month_index := game_month_index + 1 } }
              .ok (cfg2, messages)

/-- emission2team (contract.rs lines 309-352). -/
def emission2team (api : Api) (env : Env) (sender : String)
    (cfg : MoonInfoRaw) : Except ContractError (MoonInfoRaw × List CosmosMsg) :=
  match api.canon sender with
  | .error e => .error (.Std e)
  | .ok senderCanon =>
    if senderCanon ≠ cfg.timer_trigger then .error .Unauthorized
    else
      let clsm_addr := cfg.clsm_addr
      let team_address := cfg.team_vest.address
      let team_monthly_amount := cfg.team_vest.monthly_amount
      let team_month_count := cfg.team_vest.month_count
      let team_month_index := cfg.team_vest.month_index
      if team_month_index ≥ team_month_count then
        .error .Unauthorized
      else
        match api.human clsm_addr with
        | .error e => .error (.Std e)
        | .ok clsmHuman =>
          let clsm_amount := env.balanceOf clsmHuman env.contractAddress
          if clsm_amount < team_monthly_amount then
            .error .LessThanVesting
          else
            match api.human team_address with
            | .error e => .error (.Std e)
            | .ok teamHuman =>
              let messages := [transfer_token_message (Denom.cw20 clsmHuman)
                team_monthly_amount teamHuman]
              let cfg2 := { cfg with team_vest :=
                { cfg.team_vest with month_index := team_month_index + 1 } }
              .ok (cfg2, messages)

/-- dynamic_mint (contract.rs lines 354-388): same permission and
pair-schedule bounds checks as emission2pair_contract, no balance query;
the caller-supplied amount is never read, the fixed pair monthly amount is
transferred and the pair cursor is advanced.  The env argument is kept to
mirror the source signature although the body never uses it. -/
def dynamic_mint (api : Api) (env : Env) (sender : String)
    (cfg : MoonInfoRaw) (amount : Nat) :
    Except ContractError (MoonInfoRaw × List CosmosMsg) :=
  match api.canon sender with
  | .error e => .error (.Std e)
  | .ok senderCanon =>
    if senderCanon ≠ cfg.timer_trigger then .error .Unauthorized
    else
      let clsm_addr := cfg.clsm_addr
      let pair_contract_address := cfg.pair_vest.address
      let pair_contract_monthly_amount := cfg.pair_vest.monthly_amount
      let pair_contract_month_count := cfg.pair_vest.month_count
      let pair_contract_month_index := cfg.pair_vest.month_index
      if pair_contract_month_index ≥ pair_contract_month_count then
        .error .Unauthorized
      else
        match api.human clsm_addr with
        | .error e => .error (.Std e)
        | .ok clsmHuman =>
          match api.human pair_contract_address with
          | .error e => .error (.Std e)
          | .ok pairHuman =>
            let messages := [transfer_token_message (Denom.cw20 clsmHuman)
              pair_contract_monthly_amount pairHuman]
            let cfg2 := { cfg with pair_vest :=
              { cfg.pair_vest with month_index := pair_contract_month_index + 1 } }
            .ok (cfg2, messages)

/-- automatic_burn (contract.rs lines 390-427): permission check, query the
total supply, pick the tier (divide by 4 at or above 1,000,000,000,
otherwise by 100) and return one burn-from instruction addressed to the
token contract (clsm_addr.to_string()) burning from the pair beneficiary
(pair_contract_address.to_string()).  It never saves, so it returns only
the messages. -/
def automatic_burn (api : Api) (env : Env) (sender : String)
    (cfg : MoonInfoRaw) : Except ContractError (List CosmosMsg) :=
  match api.canon sender with
  | .error e => .error (.Std e)
  | .ok senderCanon =>
    if senderCanon ≠ cfg.timer_trigger then .error .Unauthorized
    else
      let clsm_addr := cfg.clsm_addr
      let pair_contract_address := cfg.pair_vest.address
      match api.human clsm_addr with
      | .error e => .error (.Std e)
      | .ok clsmHuman =>
        let total_supply := env.totalSupplyOf clsmHuman env.contractAddress
        let burn_amount :=
          if total_supply ≥ 1000000000 then total_supply / 4
          else total_supply / 100
        .ok [CosmosMsg.burnFrom clsm_addr pair_contract_address burn_amount]

/-- sendLunc (contract.rs lines 429-440).  As written the source does not
compile (it pushes onto an undeclared variable, references env outside any
parameter list, and passes the transfer arguments in an ill-typed order);
what it unambiguously does is: take only the amount, never read the caller
or the stored configuration, perform no permission check, never save, and
return Ok with a single native-uluna transfer instruction built from
env.contract.address and the amount.  The free env of the body is taken as
a parameter. -/
def sendLunc (env : Env) (amount : Nat) : Except ContractError (List CosmosMsg) :=
  .ok [transfer_token_message (Denom.native "uluna") amount env.contractAddress]

/-- classic_terraswap::moon::ExecuteMsg, the variants execute dispatches on
(contract.rs lines 116-126). -/
inductive ExecuteMsg where
  | MintCLSMToPairContract
  | MintCLSMToNFTMinters
  | MintCLSMToMarketing
  | MintCLSMToMiniGames
  | MintCLSMToTeam
  | DynamicMintFromLunc (amount : Nat)
  | DynamicMintFromUstc (amount : Nat)
  | AutomaticBurn
  | SendLUNC (amount : Nat)
deriving DecidableEq, Repr

/-- execute (contract.rs lines 109-127): dispatch to the operation.  The
result pairs the configuration that is persisted after the call with the
response messages; operations that never save (automatic_burn, sendLunc)
leave the stored configuration as it was. -/
def execute (t : Tick) (cfg : MoonInfoRaw) :
    ExecuteMsg → Except ContractError (MoonInfoRaw × List CosmosMsg)
  | .MintCLSMToPairContract => emission2pair_contract t.api t.env t.sender cfg
  | .MintCLSMToNFTMinters => emission2nft_minter t.api t.env t.sender cfg
  | .MintCLSMToMarketing => emission2marketing t.api t.env t.sender cfg
  | .MintCLSMToMiniGames => emission2minigames t.api t.env t.sender cfg
  | .MintCLSMToTeam => emission2team t.api t.env t.sender cfg
  | .DynamicMintFromLunc amount => dynamic_mint t.api t.env t.sender cfg amount
  | .DynamicMintFromUstc amount => dynamic_mint t.api t.env t.sender cfg amount
  | .AutomaticBurn => (automatic_burn t.api t.env t.sender cfg).map (fun m => (cfg, m))
  | .SendLUNC amount => (sendLunc t.env amount).map (fun m => (cfg, m))

/-- The configuration left in storage after a call: the saved one on
success, the untouched one on error (every error path of the source returns
before MOON_CONFIG.save, and the host additionally rolls back failed
calls). -/
def nextConfig (t : Tick) (cfg : MoonInfoRaw) (m : ExecuteMsg) : MoonInfoRaw :=
  match execute t cfg m with
  | .ok p => p.1
  | .error _ => cfg

/-- Folding nextConfig over a sequence of calls. -/
def runCalls (cfg : MoonInfoRaw) (calls : List (Tick × ExecuteMsg)) : MoonInfoRaw :=
  calls.foldl (fun c tm => nextConfig tm.1 c tm.2) cfg

/-- The five beneficiary categories of spec section 3. -/
inductive VestCategory where
  | pair
  | nft
  | marketing
  | game
  | team
deriving DecidableEq, Repr

/-- The schedule of a category inside the configuration. -/
def vestOf (cfg : MoonInfoRaw) : VestCategory → VestInfoRaw
  | .pair => cfg.pair_vest
  | .nft => cfg.nft_vest
  | .marketing => cfg.marketing_vest
  | .game => cfg.game_vest
  | .team => cfg.team_vest

/-- The execute message that releases a category's schedule. -/
def releaseMsg : VestCategory → ExecuteMsg
  | .pair => .MintCLSMToPairContract
  | .nft => .MintCLSMToNFTMinters
  | .marketing => .MintCLSMToMarketing
  | .game => .MintCLSMToMiniGames
  | .team => .MintCLSMToTeam

/-- The cursor invariant of spec section 3 for all five schedules. -/
def cursorBounded (cfg : MoonInfoRaw) : Prop :=
  cfg.pair_vest.month_index ≤ cfg.pair_vest.month_count ∧
  cfg.nft_vest.month_index ≤ cfg.nft_vest.month_count ∧
  cfg.marketing_vest.month_index ≤ cfg.marketing_vest.month_count ∧
  cfg.game_vest.month_index ≤ cfg.game_vest.month_count ∧
  cfg.team_vest.month_index ≤ cfg.team_vest.month_count

instance (cfg : MoonInfoRaw) : Decidable (cursorBounded cfg) := by
  unfold cursorBounded; infer_instance

/-! ## Helper lemmas: result shapes of the operations -/

theorem emission2pair_ok_shape (api : Api) (env : Env) (sender : String)
    (cfg cfg2 : MoonInfoRaw) (msgs : List CosmosMsg)
    (h : emission2pair_contract api env sender cfg = .ok (cfg2, msgs)) :
    cfg.pair_vest.month_index < cfg.pair_vest.month_count ∧
    cfg2 = { cfg with pair_vest :=
      { cfg.pair_vest with month_index := cfg.pair_vest.month_index + 1 } } ∧
    ∃ ch ph, api.human cfg.clsm_addr = .ok ch ∧
      api.human cfg.pair_vest.address = .ok ph ∧
      msgs = [CosmosMsg.transfer (Denom.cw20 ch) cfg.pair_vest.monthly_amount ph] := by
  simp only [emission2pair_contract] at h
  split at h
  · exact absurd h (by simp)
  split at h
  · exact absurd h (by simp)
  split at h
  · exact absurd h (by simp)
  split at h
  · exact absurd h (by simp)
  split at h
  · exact absurd h (by simp)
  split at h
  · exact absurd h (by simp)
  rename_i x1 senderCanon hcanon hne hbound x2 ch hch hbal x3 ph hph
  simp only [Except.ok.injEq, Prod.mk.injEq, transfer_token_message] at h
  obtain ⟨hcfg2, hmsgs⟩ := h
  refine ⟨Nat.lt_of_not_le (by simpa using hbound), hcfg2.symm, ch, ph, hch, hph,
    hmsgs.symm⟩

theorem emission2nft_ok_shape (api : Api) (env : Env) (sender : String)
    (cfg cfg2 : MoonInfoRaw) (msgs : List CosmosMsg)
    (h : emission2nft_minter api env sender cfg = .ok (cfg2, msgs)) :
    cfg.nft_vest.month_index < cfg.nft_vest.month_count ∧
    cfg2 = { cfg with nft_vest :=
      { cfg.nft_vest with month_index := cfg.nft_vest.month_index + 1 } } ∧
    ∃ ch bh, api.human cfg.clsm_addr = .ok ch ∧
      api.human cfg.nft_vest.address = .ok bh ∧
      msgs = [CosmosMsg.transfer (Denom.cw20 ch) cfg.nft_vest.monthly_amount bh] := by
  simp only [emission2nft_minter] at h
  split at h
  · exact absurd h (by simp)
  split at h
  · exact absurd h (by simp)
  split at h
  · exact absurd h (by simp)
  split at h
  · exact absurd h (by simp)
  split at h
  · exact absurd h (by simp)
  split at h
  · exact absurd h (by simp)
  rename_i x1 senderCanon hcanon hne hbound x2 ch hch hbal x3 bh hbh
  simp only [Except.ok.injEq, Prod.mk.injEq, transfer_token_message] at h
  obtain ⟨hcfg2, hmsgs⟩ := h
  refine ⟨Nat.lt_of_not_le (by simpa using hbound), hcfg2.symm, ch, bh, hch, hbh,
    hmsgs.symm⟩

theorem emission2marketing_ok_shape (api : Api) (env : Env) (sender : String)
    (cfg cfg2 : MoonInfoRaw) (msgs : List CosmosMsg)
    (h : emission2marketing api env sender cfg = .ok (cfg2, msgs)) :
    cfg.marketing_vest.month_index < cfg.marketing_vest.month_count ∧
    cfg2 = { cfg with marketing_vest :=
      { cfg.marketing_vest with month_index := cfg.marketing_vest.month_index + 1 } } ∧
    ∃ ch bh, api.human cfg.clsm_addr = .ok ch ∧
      api.human cfg.marketing_vest.address = .ok bh ∧
      msgs = [CosmosMsg.transfer (Denom.cw20 ch) cfg.marketing_vest.monthly_amount bh] := by
  simp only [emission2marketing] at h
  split at h
  · exact absurd h (by simp)
  split at h
  · exact absurd h (by simp)
  split at h
  · exact absurd h (by simp)
  split at h
  · exact absurd h (by simp)
  split at h
  · exact absurd h (by simp)
  split at h
  · exact absurd h (by simp)
  rename_i x1 senderCanon hcanon hne hbound x2 ch hch hbal x3 bh hbh
  simp only [Except.ok.injEq, Prod.mk.injEq, transfer_token_message] at h
  obtain ⟨hcfg2, hmsgs⟩ := h
  refine ⟨Nat.lt_of_not_le (by simpa using hbound), hcfg2.symm, ch, bh, hch, hbh,
    hmsgs.symm⟩

theorem emission2minigames_ok_shape (api : Api) (env : Env) (sender : String)
    (cfg cfg2 : MoonInfoRaw) (msgs : List CosmosMsg)
    (h : emission2minigames api env sender cfg = .ok (cfg2, msgs)) :
    cfg.game_vest.month_index < cfg.game_vest.month_count ∧
    cfg2 = { cfg with game_vest :=
      { cfg.game_vest with month_index := cfg.game_vest.month_index + 1 } } ∧
    ∃ ch bh, api.human cfg.clsm_addr = .ok ch ∧
      api.human cfg.game_vest.address = .ok bh ∧
      msgs = [CosmosMsg.transfer (Denom.cw20 ch) cfg.game_vest.monthly_amount bh] := by
  simp only [emission2minigames] at h
  split at h
  · exact absurd h (by simp)
  split at h
  · exact absurd h (by simp)
  split at h
  · exact absurd h (by simp)
  split at h
  · exact absurd h (by simp)
  split at h
  · exact absurd h (by simp)
  split at h
  · exact absurd h (by simp)
  rename_i x1 senderCanon hcanon hne hbound x2 ch hch hbal x3 bh hbh
  simp only [Except.ok.injEq, Prod.mk.injEq, transfer_token_message] at h
  obtain ⟨hcfg2, hmsgs⟩ := h
  refine ⟨Nat.lt_of_not_le (by simpa using hbound), hcfg2.symm, ch, bh, hch, hbh,
    hmsgs.symm⟩

theorem emission2team_ok_shape (api : Api) (env : Env) (sender : String)
    (cfg cfg2 : MoonInfoRaw) (msgs : List CosmosMsg)
    (h : emission2team api env sender cfg = .ok (cfg2, msgs)) :
    cfg.team_vest.month_index < cfg.team_vest.month_count ∧
    cfg2 = { cfg with team_vest :=
      { cfg.team_vest with month_index := cfg.team_vest.month_index + 1 } } ∧
    ∃ ch bh, api.human cfg.clsm_addr = .ok ch ∧
      api.human cfg.team_vest.address = .ok bh ∧
      msgs = [CosmosMsg.transfer (Denom.cw20 ch) cfg.team_vest.monthly_amount bh] := by
  simp only [emission2team] at h
  split at h
  · exact absurd h (by simp)
  split at h
  · exact absurd h (by simp)
  split at h
  · exact absurd h (by simp)
  split at h
  · exact absurd h (by simp)
  split at h
  · exact absurd h (by simp)
  split at h
  · exact absurd h (by simp)
  rename_i x1 senderCanon hcanon hne hbound x2 ch hch hbal x3 bh hbh
  simp only [Except.ok.injEq, Prod.mk.injEq, transfer_token_message] at h
  obtain ⟨hcfg2, hmsgs⟩ := h
  refine ⟨Nat.lt_of_not_le (by simpa using hbound), hcfg2.symm, ch, bh, hch, hbh,
    hmsgs.symm⟩

theorem dynamic_mint_ok_shape (api : Api) (env : Env) (sender : String)
    (cfg cfg2 : MoonInfoRaw) (amount : Nat) (msgs : List CosmosMsg)
    (h : dynamic_mint api env sender cfg amount = .ok (cfg2, msgs)) :
    cfg.pair_vest.month_index < cfg.pair_vest.month_count ∧
    cfg2 = { cfg with pair_vest :=
      { cfg.pair_vest with month_index := cfg.pair_vest.month_index + 1 } } ∧
    ∃ ch ph, api.human cfg.clsm_addr = .ok ch ∧
      api.human cfg.pair_vest.address = .ok ph ∧
      msgs = [CosmosMsg.transfer (Denom.cw20 ch) cfg.pair_vest.monthly_amount ph] := by
  simp only [dynamic_mint] at h
  split at h
  · exact absurd h (by simp)
  split at h
  · exact absurd h (by simp)
  split at h
  · exact absurd h (by simp)
  split at h
  · exact absurd h (by simp)
  split at h
  · exact absurd h (by simp)
  rename_i x1 senderCanon hcanon hne hbound x2 ch hch x3 ph hph
  simp only [Except.ok.injEq, Prod.mk.injEq, transfer_token_message] at h
  obtain ⟨hcfg2, hmsgs⟩ := h
  refine ⟨Nat.lt_of_not_le (by simpa using hbound), hcfg2.symm, ch, ph, hch, hph,
    hmsgs.symm⟩

theorem nextConfig_burn_eq (t : Tick) (cfg : MoonInfoRaw) :
    nextConfig t cfg ExecuteMsg.AutomaticBurn = cfg := by
  simp only [nextConfig, execute]
  cases h : automatic_burn t.api t.env t.sender cfg <;> simp [Except.map]

theorem nextConfig_send_eq (t : Tick) (cfg : MoonInfoRaw) (amount : Nat) :
    nextConfig t cfg (ExecuteMsg.SendLUNC amount) = cfg := by
  simp [nextConfig, execute, sendLunc, Except.map]

theorem instantiate_ok_shape (api : Api) (msg0 : InstantiateMsg)
    (cfg0 : MoonInfoRaw) (h : instantiate api msg0 = .ok cfg0) :
    cfg0.pair_vest.month_index = 0 ∧ cfg0.nft_vest.month_index = 0 ∧
    cfg0.marketing_vest.month_index = 0 ∧ cfg0.game_vest.month_index = 0 ∧
    cfg0.team_vest.month_index = 0 := by
  simp only [instantiate, bind, Except.bind, pure, Except.pure] at h
  split at h
  · exact absurd h (by simp)
  split at h
  · exact absurd h (by simp)
  split at h
  · exact absurd h (by simp)
  split at h
  · exact absurd h (by simp)
  split at h
  · exact absurd h (by simp)
  split at h
  · exact absurd h (by simp)
  split at h
  · exact absurd h (by simp)
  split at h
  · exact absurd h (by simp)
  simp only [Except.ok.injEq] at h
  subst h
  simp

/-! ## Invariant preservation -/

theorem nextConfig_cursorBounded (t : Tick) (cfg : MoonInfoRaw) (m : ExecuteMsg)
    (hc : cursorBounded cfg) : cursorBounded (nextConfig t cfg m) := by
  obtain ⟨h1, h2, h3, h4, h5⟩ := hc
  cases m with
  | MintCLSMToPairContract =>
    cases hres : execute t cfg ExecuteMsg.MintCLSMToPairContract with
    | error e => simp only [nextConfig, hres]; exact ⟨h1, h2, h3, h4, h5⟩
    | ok p =>
      obtain ⟨cfg2, msgs⟩ := p
      obtain ⟨hlt, hcfg2, -⟩ := emission2pair_ok_shape t.api t.env t.sender cfg
        cfg2 msgs (by simpa [execute] using hres)
      subst hcfg2
      simp only [nextConfig, hres, cursorBounded]
      exact ⟨hlt, h2, h3, h4, h5⟩
  | MintCLSMToNFTMinters =>
    cases hres : execute t cfg ExecuteMsg.MintCLSMToNFTMinters with
    | error e => simp only [nextConfig, hres]; exact ⟨h1, h2, h3, h4, h5⟩
    | ok p =>
      obtain ⟨cfg2, msgs⟩ := p
      obtain ⟨hlt, hcfg2, -⟩ := emission2nft_ok_shape t.api t.env t.sender cfg
        cfg2 msgs (by simpa [execute] using hres)
      subst hcfg2
      simp only [nextConfig, hres, cursorBounded]
      exact ⟨h1, hlt, h3, h4, h5⟩
  | MintCLSMToMarketing =>
    cases hres : execute t cfg ExecuteMsg.MintCLSMToMarketing with
    | error e => simp only [nextConfig, hres]; exact ⟨h1, h2, h3, h4, h5⟩
    | ok p =>
      obtain ⟨cfg2, msgs⟩ := p
      obtain ⟨hlt, hcfg2, -⟩ := emission2marketing_ok_shape t.api t.env t.sender cfg
        cfg2 msgs (by simpa [execute] using hres)
      subst hcfg2
      simp only [nextConfig, hres, cursorBounded]
      exact ⟨h1, h2, hlt, h4, h5⟩
  | MintCLSMToMiniGames =>
    cases hres : execute t cfg ExecuteMsg.MintCLSMToMiniGames with
    | error e => simp only [nextConfig, hres]; exact ⟨h1, h2, h3, h4, h5⟩
    | ok p =>
      obtain ⟨cfg2, msgs⟩ := p
      obtain ⟨hlt, hcfg2, -⟩ := emission2minigames_ok_shape t.api t.env t.sender cfg
        cfg2 msgs (by simpa [execute] using hres)
      subst hcfg2
      simp only [nextConfig, hres, cursorBounded]
      exact ⟨h1, h2, h3, hlt, h5⟩
  | MintCLSMToTeam =>
    cases hres : execute t cfg ExecuteMsg.MintCLSMToTeam with
    | error e => simp only [nextConfig, hres]; exact ⟨h1, h2, h3, h4, h5⟩
    | ok p =>
      obtain ⟨cfg2, msgs⟩ := p
      obtain ⟨hlt, hcfg2, -⟩ := emission2team_ok_shape t.api t.env t.sender cfg
        cfg2 msgs (by simpa [execute] using hres)
      subst hcfg2
      simp only [nextConfig, hres, cursorBounded]
      exact ⟨h1, h2, h3, h4, hlt⟩
  | DynamicMintFromLunc amount =>
    cases hres : execute t cfg (ExecuteMsg.DynamicMintFromLunc amount) with
    | error e => simp only [nextConfig, hres]; exact ⟨h1, h2, h3, h4, h5⟩
    | ok p =>
      obtain ⟨cfg2, msgs⟩ := p
      obtain ⟨hlt, hcfg2, -⟩ := dynamic_mint_ok_shape t.api t.env t.sender cfg
        cfg2 amount msgs (by simpa [execute] using hres)
      subst hcfg2
      simp only [nextConfig, hres, cursorBounded]
      exact ⟨hlt, h2, h3, h4, h5⟩
  | DynamicMintFromUstc amount =>
    cases hres : execute t cfg (ExecuteMsg.DynamicMintFromUstc amount) with
    | error e => simp only [nextConfig, hres]; exact ⟨h1, h2, h3, h4, h5⟩
    | ok p =>
      obtain ⟨cfg2, msgs⟩ := p
      obtain ⟨hlt, hcfg2, -⟩ := dynamic_mint_ok_shape t.api t.env t.sender cfg
        cfg2 amount msgs (by simpa [execute] using hres)
      subst hcfg2
      simp only [nextConfig, hres, cursorBounded]
      exact ⟨hlt, h2, h3, h4, h5⟩
  | AutomaticBurn =>
    rw [nextConfig_burn_eq]
    exact ⟨h1, h2, h3, h4, h5⟩
  | SendLUNC amount =>
    rw [nextConfig_send_eq]
    exact ⟨h1, h2, h3, h4, h5⟩

theorem runCalls_cursorBounded (calls : List (Tick × ExecuteMsg)) :
    ∀ cfg : MoonInfoRaw, cursorBounded cfg → cursorBounded (runCalls cfg calls) := by
  induction calls with
  | nil => intro cfg hc; exact hc
  | cons tm rest ih =>
    intro cfg hc
    have hstep := nextConfig_cursorBounded tm.1 cfg tm.2 hc
    simpa [runCalls] using ih (nextConfig tm.1 cfg tm.2) hstep

/-! ## Concrete fixtures for witnesses and counterexamples -/

/-- Identity address codec: every address canonicalizes and humanizes to
itself. -/
def exApi : Api := { canon := fun s => .ok s, human := fun s => .ok s }

/-- A chain context with a well-funded treasury and a large total supply. -/
def exEnv : Env :=
  { contractAddress := "moon_contract"
    balanceOf := fun _ _ => 1000000
    totalSupplyOf := fun _ _ => 4000000000 }

/-- A schedule of 12 monthly releases of 100 units, cursor at 0. -/
def exVest (addr : String) : VestInfoRaw :=
  { address := addr, monthly_amount := 100, month_count := 12, month_index := 0 }

/-- A freshly instantiated configuration with trigger address "trigger". -/
def exCfg : MoonInfoRaw :=
  { clsm_addr := "clsm_token"
    minter_addr := "minter"
    timer_trigger := "trigger"
    pair_vest := exVest "pair_beneficiary"
    nft_vest := exVest "nft_pool"
    marketing_vest := exVest "marketing_wallet"
    game_vest := exVest "games_wallet"
    team_vest := exVest "team_wallet" }

/-- The instantiate message that produces exCfg under the identity codec. -/
def exMsg : InstantiateMsg :=
  { clsm_addr := "clsm_token"
    minter_addr := "minter"
    timer_trigger := "trigger"
    pair_vest := { address := "pair_beneficiary", monthly_amount := 100, month_count := 12 }
    nft_vest := { address := "nft_pool", monthly_amount := 100, month_count := 12 }
    marketing_vest := { address := "marketing_wallet", monthly_amount := 100, month_count := 12 }
    game_vest := { address := "games_wallet", monthly_amount := 100, month_count := 12 }
    team_vest := { address := "team_wallet", monthly_amount := 100, month_count := 12 } }

/-- A call from the configured trigger address. -/
def triggerTick : Tick := { api := exApi, env := exEnv, sender := "trigger" }

/-- A call from an address that is not the trigger. -/
def attackerTick : Tick := { api := exApi, env := exEnv, sender := "attacker" }

/-- exCfg with the pair schedule exhausted (cursor at its month_count). -/
def exhaustedCfg : MoonInfoRaw :=
  { exCfg with pair_vest := { exCfg.pair_vest with month_index := 12 } }

/-- A trigger call whose treasury balance (5) is below every monthly
amount (100). -/
def lowBalanceTick : Tick :=
  { api := exApi, env := { exEnv with balanceOf := fun _ _ => 5 }, sender := "trigger" }

/-- A trigger call on a chain whose token total supply is zero. -/
def zeroSupplyTick : Tick :=
  { api := exApi, env := { exEnv with totalSupplyOf := fun _ _ => 0 }, sender := "trigger" }

/-- exCfg after one successful pair release. -/
def pairReleasedCfg : MoonInfoRaw :=
  { exCfg with pair_vest := { exCfg.pair_vest with month_index := 1 } }

/-- The messages of one successful pair release from exCfg. -/
def pairReleaseMsgs : List CosmosMsg :=
  [CosmosMsg.transfer (Denom.cw20 "clsm_token") 100 "pair_beneficiary"]

/-! ## Claims -/

/-- Claim C1: starting from any successful instantiation, every schedule's
month_index is 0, and after any sequence of execute calls every schedule's
month_index still does not exceed its month_count: each release increments
the cursor only under the guard month_index < month_count. -/
theorem C1_cursor_never_exceeds_count (api : Api) (msg0 : InstantiateMsg)
    (cfg0 : MoonInfoRaw) (h : instantiate api msg0 = .ok cfg0)
    (calls : List (Tick × ExecuteMsg)) :
    (∀ c : VestCategory, (vestOf cfg0 c).month_index = 0) ∧
    cursorBounded (runCalls cfg0 calls) := by
  obtain ⟨z1, z2, z3, z4, z5⟩ := instantiate_ok_shape api msg0 cfg0 h
  refine ⟨fun c => by cases c <;> simpa [vestOf], ?_⟩
  exact runCalls_cursorBounded calls cfg0
    ⟨z1 ▸ Nat.zero_le _, z2 ▸ Nat.zero_le _, z3 ▸ Nat.zero_le _,
     z4 ▸ Nat.zero_le _, z5 ▸ Nat.zero_le _⟩

/-- Witness for C1 at a concrete instantiation followed by a pair release
from the trigger and a team release attempt from a non-trigger caller. -/
theorem C1_cursor_never_exceeds_count_witness :
    (vestOf exCfg VestCategory.pair).month_index = 0 ∧
    cursorBounded (runCalls exCfg
      [(triggerTick, ExecuteMsg.MintCLSMToPairContract),
       (attackerTick, ExecuteMsg.MintCLSMToTeam)]) :=
  ⟨(C1_cursor_never_exceeds_count exApi exMsg exCfg rfl
      [(triggerTick, ExecuteMsg.MintCLSMToPairContract),
       (attackerTick, ExecuteMsg.MintCLSMToTeam)]).1 VestCategory.pair,
   (C1_cursor_never_exceeds_count exApi exMsg exCfg rfl
      [(triggerTick, ExecuteMsg.MintCLSMToPairContract),
       (attackerTick, ExecuteMsg.MintCLSMToTeam)]).2⟩

/-- Claim C2: for every category and every state, a release call either
succeeds with exactly one token-transfer instruction and the persisted
configuration carrying that category's month_index incremented by exactly
1, or it errors and the persisted configuration is unchanged. -/
theorem C2_release_all_or_nothing (t : Tick) (cfg : MoonInfoRaw) (c : VestCategory) :
    (∀ cfg2 msgs, execute t cfg (releaseMsg c) = .ok (cfg2, msgs) →
      msgs.length = 1 ∧
      (vestOf cfg2 c).month_index = (vestOf cfg c).month_index + 1 ∧
      ∃ d a r, msgs = [CosmosMsg.transfer d a r]) ∧
    (∀ e, execute t cfg (releaseMsg c) = .error e →
      nextConfig t cfg (releaseMsg c) = cfg) := by
  constructor
  · intro cfg2 msgs h
    cases c with
    | pair =>
      obtain ⟨-, hcfg2, ch, bh, -, -, hmsgs⟩ := emission2pair_ok_shape t.api t.env
        t.sender cfg cfg2 msgs (by simpa [execute, releaseMsg] using h)
      subst hcfg2; subst hmsgs
      exact ⟨rfl, by simp [vestOf], ⟨_, _, _, rfl⟩⟩
    | nft =>
      obtain ⟨-, hcfg2, ch, bh, -, -, hmsgs⟩ := emission2nft_ok_shape t.api t.env
        t.sender cfg cfg2 msgs (by simpa [execute, releaseMsg] using h)
      subst hcfg2; subst hmsgs
      exact ⟨rfl, by simp [vestOf], ⟨_, _, _, rfl⟩⟩
    | marketing =>
      obtain ⟨-, hcfg2, ch, bh, -, -, hmsgs⟩ := emission2marketing_ok_shape t.api t.env
        t.sender cfg cfg2 msgs (by simpa [execute, releaseMsg] using h)
      subst hcfg2; subst hmsgs
      exact ⟨rfl, by simp [vestOf], ⟨_, _, _, rfl⟩⟩
    | game =>
      obtain ⟨-, hcfg2, ch, bh, -, -, hmsgs⟩ := emission2minigames_ok_shape t.api t.env
        t.sender cfg cfg2 msgs (by simpa [execute, releaseMsg] using h)
      subst hcfg2; subst hmsgs
      exact ⟨rfl, by simp [vestOf], ⟨_, _, _, rfl⟩⟩
    | team =>
      obtain ⟨-, hcfg2, ch, bh, -, -, hmsgs⟩ := emission2team_ok_shape t.api t.env
        t.sender cfg cfg2 msgs (by simpa [execute, releaseMsg] using h)
      subst hcfg2; subst hmsgs
      exact ⟨rfl, by simp [vestOf], ⟨_, _, _, rfl⟩⟩
  · intro e he
    simp [nextConfig, he]

/-- Witness for C2: a successful pair release from the trigger caller. -/
theorem C2_release_all_or_nothing_witness :
    pairReleaseMsgs.length = 1 ∧
    (vestOf pairReleasedCfg VestCategory.pair).month_index =
      (vestOf exCfg VestCategory.pair).month_index + 1 ∧
    ∃ d a r, pairReleaseMsgs = [CosmosMsg.transfer d a r] :=
  (C2_release_all_or_nothing triggerTick exCfg VestCategory.pair).1
    pairReleasedCfg pairReleaseMsgs rfl

/-- Claim C9: a successful release for a category changes only that
category's month_index: all addresses, amounts and counts, and every other
category's whole schedule, are unchanged. -/
theorem C9_release_frame (t : Tick) (cfg : MoonInfoRaw) (c : VestCategory)
    (cfg2 : MoonInfoRaw) (msgs : List CosmosMsg)
    (h : execute t cfg (releaseMsg c) = .ok (cfg2, msgs)) :
    cfg2.clsm_addr = cfg.clsm_addr ∧
    cfg2.minter_addr = cfg.minter_addr ∧
    cfg2.timer_trigger = cfg.timer_trigger ∧
    (∀ c2 : VestCategory, c2 ≠ c → vestOf cfg2 c2 = vestOf cfg c2) ∧
    (vestOf cfg2 c).address = (vestOf cfg c).address ∧
    (vestOf cfg2 c).monthly_amount = (vestOf cfg c).monthly_amount ∧
    (vestOf cfg2 c).month_count = (vestOf cfg c).month_count ∧
    (vestOf cfg2 c).month_index = (vestOf cfg c).month_index + 1 := by
  cases c with
  | pair =>
    obtain ⟨-, hcfg2, -⟩ := emission2pair_ok_shape t.api t.env t.sender cfg cfg2
      msgs (by simpa [execute, releaseMsg] using h)
    subst hcfg2
    exact ⟨rfl, rfl, rfl,
      fun c2 hne => by cases c2 <;> first | exact absurd rfl hne | rfl,
      rfl, rfl, rfl, rfl⟩
  | nft =>
    obtain ⟨-, hcfg2, -⟩ := emission2nft_ok_shape t.api t.env t.sender cfg cfg2
      msgs (by simpa [execute, releaseMsg] using h)
    subst hcfg2
    exact ⟨rfl, rfl, rfl,
      fun c2 hne => by cases c2 <;> first | exact absurd rfl hne | rfl,
      rfl, rfl, rfl, rfl⟩
  | marketing =>
    obtain ⟨-, hcfg2, -⟩ := emission2marketing_ok_shape t.api t.env t.sender cfg cfg2
      msgs (by simpa [execute, releaseMsg] using h)
    subst hcfg2
    exact ⟨rfl, rfl, rfl,
      fun c2 hne => by cases c2 <;> first | exact absurd rfl hne | rfl,
      rfl, rfl, rfl, rfl⟩
  | game =>
    obtain ⟨-, hcfg2, -⟩ := emission2minigames_ok_shape t.api t.env t.sender cfg cfg2
      msgs (by simpa [execute, releaseMsg] using h)
    subst hcfg2
    exact ⟨rfl, rfl, rfl,
      fun c2 hne => by cases c2 <;> first | exact absurd rfl hne | rfl,
      rfl, rfl, rfl, rfl⟩
  | team =>
    obtain ⟨-, hcfg2, -⟩ := emission2team_ok_shape t.api t.env t.sender cfg cfg2
      msgs (by simpa [execute, releaseMsg] using h)
    subst hcfg2
    exact ⟨rfl, rfl, rfl,
      fun c2 hne => by cases c2 <;> first | exact absurd rfl hne | rfl,
      rfl, rfl, rfl, rfl⟩

/-- Witness for C9: the successful pair release from exCfg leaves the team
schedule untouched and advances the pair cursor by one. -/
theorem C9_release_frame_witness :
    vestOf pairReleasedCfg VestCategory.team = vestOf exCfg VestCategory.team ∧
    (vestOf pairReleasedCfg VestCategory.pair).month_index =
      (vestOf exCfg VestCategory.pair).month_index + 1 :=
  ⟨(C9_release_frame triggerTick exCfg VestCategory.pair pairReleasedCfg
      pairReleaseMsgs rfl).2.2.2.1 VestCategory.team (by decide),
   (C9_release_frame triggerTick exCfg VestCategory.pair pairReleasedCfg
      pairReleaseMsgs rfl).2.2.2.2.2.2.2⟩

/-- Claim C4, counterexample to the claim as stated: with the trigger
caller and the pair schedule exhausted, the call fails with Unauthorized,
not with a distinct ScheduleExhausted error. -/
theorem C4_counterexample :
    execute triggerTick exhaustedCfg (releaseMsg VestCategory.pair) =
      .error .Unauthorized ∧
    execute triggerTick exhaustedCfg (releaseMsg VestCategory.pair) ≠
      .error .ScheduleExhausted := by
  constructor
  · rfl
  · have h : execute triggerTick exhaustedCfg (releaseMsg VestCategory.pair) =
        .error .Unauthorized := rfl
    rw [h]
    simp

/-- Claim C4 (amended): for every category, calling release with
month_index = month_count fails — with the same Unauthorized error the
permission check uses, the source defining no distinct ScheduleExhausted
variant on this path — even when the caller is the trigger address, and
leaves the persisted state unchanged. -/
theorem C4_exhausted_fails_with_unauthorized (t : Tick) (cfg : MoonInfoRaw)
    (c : VestCategory)
    (hauth : t.api.canon t.sender = .ok cfg.timer_trigger)
    (hex : (vestOf cfg c).month_index = (vestOf cfg c).month_count) :
    execute t cfg (releaseMsg c) = .error .Unauthorized ∧
    nextConfig t cfg (releaseMsg c) = cfg := by
  have herr : execute t cfg (releaseMsg c) = .error .Unauthorized := by
    cases c <;>
      simp only [vestOf] at hex <;>
      simp only [execute, releaseMsg, emission2pair_contract, emission2nft_minter,
        emission2marketing, emission2minigames, emission2team, hauth] <;>
      simp [hex]
  exact ⟨herr, by simp [nextConfig, herr]⟩

/-- Witness for C4 (amended) at the exhausted pair schedule and trigger
caller. -/
theorem C4_exhausted_fails_with_unauthorized_witness :
    execute triggerTick exhaustedCfg (releaseMsg VestCategory.pair) =
      .error .Unauthorized ∧
    nextConfig triggerTick exhaustedCfg (releaseMsg VestCategory.pair) =
      exhaustedCfg :=
  C4_exhausted_fails_with_unauthorized triggerTick exhaustedCfg VestCategory.pair
    rfl rfl

/-- Claim C6: for every category, with an authorized caller, a live
schedule and a treasury balance strictly below the monthly amount, release
fails with LessThanVesting (the source spelling of the spec's
InsufficientTreasuryBalance) and the persisted state is unchanged. -/
theorem C6_insufficient_balance (t : Tick) (cfg : MoonInfoRaw) (c : VestCategory)
    (ch : String)
    (hauth : t.api.canon t.sender = .ok cfg.timer_trigger)
    (hlive : (vestOf cfg c).month_index < (vestOf cfg c).month_count)
    (hch : t.api.human cfg.clsm_addr = .ok ch)
    (hbal : t.env.balanceOf ch t.env.contractAddress < (vestOf cfg c).monthly_amount) :
    execute t cfg (releaseMsg c) = .error .LessThanVesting ∧
    nextConfig t cfg (releaseMsg c) = cfg := by
  have herr : execute t cfg (releaseMsg c) = .error .LessThanVesting := by
    cases c <;>
      simp only [vestOf] at hlive hbal <;>
      simp only [execute, releaseMsg, emission2pair_contract, emission2nft_minter,
        emission2marketing, emission2minigames, emission2team, hauth, hch] <;>
      simp [Nat.not_le.mpr hlive, hbal]
  exact ⟨herr, by simp [nextConfig, herr]⟩

/-- Witness for C6: marketing release from the trigger with treasury
balance 5 against monthly amount 100. -/
theorem C6_insufficient_balance_witness :
    execute lowBalanceTick exCfg (releaseMsg VestCategory.marketing) =
      .error .LessThanVesting ∧
    nextConfig lowBalanceTick exCfg (releaseMsg VestCategory.marketing) = exCfg :=
  C6_insufficient_balance lowBalanceTick exCfg VestCategory.marketing "clsm_token"
    rfl (by decide) rfl (by decide)

/-- Claim C3, evaluated at the failing input: dispatching SendLUNC from a
caller that is not the trigger address succeeds and emits a transfer
instruction — sendLunc performs no permission check at all (it never even
receives the caller) — while the same caller is rejected with Unauthorized
by the pair release, whose check does precede its logic. -/
theorem C3_sendLunc_missing_permission_check :
    execute attackerTick exCfg (ExecuteMsg.SendLUNC 7) =
      .ok (exCfg, [CosmosMsg.transfer (Denom.native "uluna") 7 "moon_contract"]) ∧
    attackerTick.api.canon attackerTick.sender ≠ .ok exCfg.timer_trigger ∧
    execute attackerTick exCfg ExecuteMsg.MintCLSMToPairContract =
      .error .Unauthorized := by
  refine ⟨rfl, ?_, rfl⟩
  intro hcontra
  exact absurd (Except.ok.inj hcontra) (by decide)

/-- Claim C5: automatic_burn, for an authorized caller, emits exactly one
burn-from instruction on the pair-liquidity beneficiary's account whose
amount is total_supply / 4 at or above 1,000,000,000 and total_supply / 100
below it (truncating division); at total_supply 4,000,000,000 the amount is
1,000,000,000 and at 500 it is 5. -/
theorem C5_burn_tiers (t : Tick) (cfg : MoonInfoRaw) (ch : String)
    (hauth : t.api.canon t.sender = .ok cfg.timer_trigger)
    (hch : t.api.human cfg.clsm_addr = .ok ch) :
    automatic_burn t.api t.env t.sender cfg =
      .ok [CosmosMsg.burnFrom cfg.clsm_addr cfg.pair_vest.address
        (if 1000000000 ≤ t.env.totalSupplyOf ch t.env.contractAddress then
          t.env.totalSupplyOf ch t.env.contractAddress / 4
        else t.env.totalSupplyOf ch t.env.contractAddress / 100)] ∧
    (t.env.totalSupplyOf ch t.env.contractAddress = 4000000000 →
      automatic_burn t.api t.env t.sender cfg =
        .ok [CosmosMsg.burnFrom cfg.clsm_addr cfg.pair_vest.address 1000000000]) ∧
    (t.env.totalSupplyOf ch t.env.contractAddress = 500 →
      automatic_burn t.api t.env t.sender cfg =
        .ok [CosmosMsg.burnFrom cfg.clsm_addr cfg.pair_vest.address 5]) := by
  have hmain : automatic_burn t.api t.env t.sender cfg =
      .ok [CosmosMsg.burnFrom cfg.clsm_addr cfg.pair_vest.address
        (if 1000000000 ≤ t.env.totalSupplyOf ch t.env.contractAddress then
          t.env.totalSupplyOf ch t.env.contractAddress / 4
        else t.env.totalSupplyOf ch t.env.contractAddress / 100)] := by
    simp only [automatic_burn, hauth, hch]
    simp [ge_iff_le]
  refine ⟨hmain, fun hts => ?_, fun hts => ?_⟩
  · rw [hmain, hts]; norm_num
  · rw [hmain, hts]; norm_num

/-- Witness for C5: with total supply 4,000,000,000 the high tier burns
exactly 1,000,000,000 from the pair beneficiary. -/
theorem C5_burn_tiers_witness :
    automatic_burn triggerTick.api triggerTick.env triggerTick.sender exCfg =
      .ok [CosmosMsg.burnFrom exCfg.clsm_addr exCfg.pair_vest.address 1000000000] :=
  (C5_burn_tiers triggerTick exCfg "clsm_token" rfl rfl).2.1 rfl

/-- Claim C7: dynamic_mint ignores the caller-supplied amount entirely,
reads no balance (its result does not depend on the chain context), applies
the same permission and pair-schedule bounds checks as the scheduled pair
release, and on success transfers the fixed pair monthly amount while
advancing the same pair cursor. -/
theorem C7_dynamic_mint_behavior (t : Tick) (cfg : MoonInfoRaw)
    (amount amount2 : Nat) :
    dynamic_mint t.api t.env t.sender cfg amount =
      dynamic_mint t.api t.env t.sender cfg amount2 ∧
    (∀ env2 : Env, dynamic_mint t.api env2 t.sender cfg amount =
      dynamic_mint t.api t.env t.sender cfg amount) ∧
    (∀ senderCanon, t.api.canon t.sender = .ok senderCanon →
      senderCanon ≠ cfg.timer_trigger →
      dynamic_mint t.api t.env t.sender cfg amount = .error .Unauthorized) ∧
    (t.api.canon t.sender = .ok cfg.timer_trigger →
      cfg.pair_vest.month_count ≤ cfg.pair_vest.month_index →
      dynamic_mint t.api t.env t.sender cfg amount = .error .Unauthorized) ∧
    (∀ ch ph, t.api.canon t.sender = .ok cfg.timer_trigger →
      cfg.pair_vest.month_index < cfg.pair_vest.month_count →
      t.api.human cfg.clsm_addr = .ok ch →
      t.api.human cfg.pair_vest.address = .ok ph →
      dynamic_mint t.api t.env t.sender cfg amount =
        .ok ({ cfg with pair_vest := { cfg.pair_vest with
            month_index := cfg.pair_vest.month_index + 1 } },
          [CosmosMsg.transfer (Denom.cw20 ch) cfg.pair_vest.monthly_amount ph])) := by
  refine ⟨rfl, fun env2 => rfl, ?_, ?_, ?_⟩
  · intro senderCanon h1 h2
    simp only [dynamic_mint, h1]
    simp [h2]
  · intro h1 h2
    simp only [dynamic_mint, h1]
    simp [h2]
  · intro ch ph h1 h2 h3 h4
    simp only [dynamic_mint, h1, h3, h4]
    simp [Nat.not_le.mpr h2, transfer_token_message]

/-- Witness for C7: two different caller-supplied amounts give the same
result, and the successful call transfers the fixed monthly 100 and
advances the pair cursor exactly as the scheduled release does. -/
theorem C7_dynamic_mint_behavior_witness :
    dynamic_mint triggerTick.api triggerTick.env triggerTick.sender exCfg 7 =
      dynamic_mint triggerTick.api triggerTick.env triggerTick.sender exCfg 99999 ∧
    dynamic_mint triggerTick.api triggerTick.env triggerTick.sender exCfg 7 =
      .ok (pairReleasedCfg, pairReleaseMsgs) :=
  ⟨(C7_dynamic_mint_behavior triggerTick exCfg 7 99999).1,
   (C7_dynamic_mint_behavior triggerTick exCfg 7 99999).2.2.2.2 "clsm_token"
     "pair_beneficiary" rfl (by decide) rfl rfl⟩

/-- Claim C8: automatic_burn never writes persisted state — the stored
configuration, and with it every schedule, is identical before and after
the call, whether it succeeds or fails. -/
theorem C8_burn_touches_no_state (t : Tick) (cfg : MoonInfoRaw) :
    nextConfig t cfg ExecuteMsg.AutomaticBurn = cfg ∧
    ∀ c : VestCategory,
      vestOf (nextConfig t cfg ExecuteMsg.AutomaticBurn) c = vestOf cfg c := by
  have h := nextConfig_burn_eq t cfg
  exact ⟨h, fun c => by rw [h]⟩

/-- Claim C10: for an authorized caller automatic_burn always succeeds with
exactly one burn-from instruction, the divisions being by the nonzero
constants 4 and 100; at total supply zero the burned amount is 0. -/
theorem C10_burn_total_success (t : Tick) (cfg : MoonInfoRaw) (ch : String)
    (hauth : t.api.canon t.sender = .ok cfg.timer_trigger)
    (hch : t.api.human cfg.clsm_addr = .ok ch) :
    (∃ msgs, automatic_burn t.api t.env t.sender cfg = .ok msgs ∧
      msgs.length = 1) ∧
    (t.env.totalSupplyOf ch t.env.contractAddress = 0 →
      automatic_burn t.api t.env t.sender cfg =
        .ok [CosmosMsg.burnFrom cfg.clsm_addr cfg.pair_vest.address 0]) := by
  have hmain : automatic_burn t.api t.env t.sender cfg =
      .ok [CosmosMsg.burnFrom cfg.clsm_addr cfg.pair_vest.address
        (if 1000000000 ≤ t.env.totalSupplyOf ch t.env.contractAddress then
          t.env.totalSupplyOf ch t.env.contractAddress / 4
        else t.env.totalSupplyOf ch t.env.contractAddress / 100)] := by
    simp only [automatic_burn, hauth, hch]
    simp [ge_iff_le]
  refine ⟨⟨_, hmain, rfl⟩, fun hts => ?_⟩
  rw [hmain, hts]
  norm_num

/-- Witness for C10: with total supply 0 the burn succeeds and burns 0. -/
theorem C10_burn_total_success_witness :
    automatic_burn zeroSupplyTick.api zeroSupplyTick.env zeroSupplyTick.sender
      exCfg =
      .ok [CosmosMsg.burnFrom exCfg.clsm_addr exCfg.pair_vest.address 0] :=
  (C10_burn_total_success zeroSupplyTick exCfg "clsm_token" rfl rfl).2 rfl
